import Mathlib

/-!
# Verification of the pasid_validator_python node core

Shallow embedding of the message-manipulation, admission-control and
connection-pool logic of `src/domain/abstract_proxy.py`,
`load_balancer_proxy.py`, `service_proxy.py` and `source.py`.

Python strings are modelled as Lean `String`; Python `str.split(';')`,
`str.strip()`, `str.isdigit()`, `int(...)` and `str(int)` are re-implemented
below as structurally recursive Lean functions with the same semantics on the
ASCII data handled by this program (the program only ever builds messages out
of ASCII digits, `;`, the two marker labels, and the literals `ping`,
`free`, `busy`, `config`).  `time.time()`-derived timestamps
(`get_current_millis`) are passed explicitly as `Int` parameters, one per
call site, in source order.
-/

namespace Pasid

/-! ## Python string primitives -/

/-- Python `s.split(';')` on the character list: always returns at least one
(possibly empty) part; a separator at either end yields an empty part there. -/
def splitSemiChars : List Char → List (List Char)
  | [] => [[]]
  | c :: cs =>
    let r := splitSemiChars cs
    if c = ';' then [] :: r else (c :: r.headD []) :: r.tail

/-- Python `s.split(';')`. -/
def pySplit (s : String) : List String :=
  (splitSemiChars s.data).map (fun cs => String.mk cs)

/-- The whitespace characters removed by Python `str.strip()` (ASCII subset;
the program never embeds non-ASCII whitespace in a message). -/
def isPySpace (c : Char) : Bool :=
  c = ' ' || c = '\n' || c = '\t' || c = '\r' || c = '\x0b' || c = '\x0c'

/-- Python `s.strip()`. -/
def pyStrip (s : String) : String :=
  String.mk (((s.data.dropWhile isPySpace).reverse.dropWhile isPySpace).reverse)

/-- Python `s.isdigit()` (ASCII digits; the program only produces ASCII). -/
def pyIsDigit (s : String) : Bool :=
  !s.data.isEmpty && s.data.all (fun c => c.isDigit)

/-- Base-10 value of a digit character list, as computed by Python `int` on a
digit-only string. -/
def pyIntNat (cs : List Char) : Nat :=
  cs.foldl (fun n c => n * 10 + (c.toNat - 48)) 0

/-- Python `int(s)` for a string already known to satisfy `s.isdigit()`. -/
def pyInt (s : String) : Nat := pyIntNat s.data

/-- The idiom `int(s) if s.isdigit() else fallback` used throughout the
timestamp-stamping code. -/
def parseTs (s : String) (fallback : Int) : Int :=
  if pyIsDigit s then (pyInt s : Int) else fallback

/-- Python `int(s)` with full `try`-able semantics: optional surrounding
whitespace, optional single sign, then at least one digit; anything else is a
`ValueError`, modelled as `none`. -/
def pyToInt (s : String) : Option Int :=
  let t := (pyStrip s).data
  let digits := if t.headD ' ' = '-' ∨ t.headD ' ' = '+' then t.tail else t
  if !digits.isEmpty && digits.all (fun c => c.isDigit) then
    if t.headD ' ' = '-' then some (-(pyIntNat digits : Int))
    else some ((pyIntNat digits : Int))
  else none

/-- The decimal digit character for `n < 10`. -/
def digitChar (n : Nat) : Char := Char.ofNat (48 + n)

/-- Fuel-driven most-significant-first decimal digit list of `n`
(`fuel > n` suffices). -/
def natDigitsAux : Nat → Nat → List Char
  | 0, _ => []
  | fuel + 1, n =>
    if n < 10 then [digitChar n]
    else natDigitsAux fuel (n / 10) ++ [digitChar (n % 10)]

/-- Python `str(n)` for a non-negative integer. -/
def natStr (n : Nat) : String := String.mk (natDigitsAux (n + 1) n)

/-- Python `str(i)` / f-string interpolation of an `int`. -/
def intStr (i : Int) : String :=
  if i < 0 then "-" ++ natStr (-i).toNat else natStr i.toNat

/-- Python `parts[-1]` on a `split` result (a `split` result is never empty,
so the default is never used). -/
def pyLast (l : List String) : String := l.getLastD ""

/-- Python `parts[-2]`: `none` models an uncaught `IndexError`. -/
def pyIdxNeg2 (l : List String) : Option String := l.reverse.get? 1

/-- Python `s.startswith(pre)`. -/
def pyStartsWith (s pre : String) : Bool := pre.data.isPrefixOf s.data

/-! ## Basic lemmas about the string primitives -/

theorem splitSemiChars_ne_nil (cs : List Char) : splitSemiChars cs ≠ [] := by
  cases cs with
  | nil => simp [splitSemiChars]
  | cons c cs =>
    simp only [splitSemiChars]
    by_cases h : c = ';' <;> simp [h]

theorem splitSemiChars_length (cs : List Char) :
    (splitSemiChars cs).length = cs.count ';' + 1 := by
  induction cs with
  | nil => simp [splitSemiChars]
  | cons c cs ih =>
    simp only [splitSemiChars]
    rw [List.count_cons]
    by_cases h : c = ';'
    · subst h
      simp only [if_pos rfl, beq_self_eq_true, if_true, List.length_cons]
      omega
    · have hbe : (c == ';') = false := by
        rw [beq_eq_false_iff_ne]
        exact h
      have hlen : (splitSemiChars cs).length ≥ 1 := by
        cases hs : splitSemiChars cs with
        | nil => exact absurd hs (splitSemiChars_ne_nil cs)
        | cons p ps => simp
      simp only [if_neg h, hbe, Bool.false_eq_true, if_false, List.length_cons,
        List.length_tail]
      omega

/-- Splitting a separator-free chunk terminated by `';'`. -/
theorem splitSemiChars_no_semi_append (ds : List Char) (h : ';' ∉ ds) :
    splitSemiChars (ds ++ [';']) = [ds, []] := by
  induction ds with
  | nil => simp [splitSemiChars]
  | cons d ds ih =>
    have hd : d ≠ ';' := by
      intro hd; exact h (hd ▸ List.mem_cons_self d ds)
    have hds : ';' ∉ ds := fun hm => h (List.mem_cons_of_mem d hm)
    simp only [List.cons_append, splitSemiChars, List.append_eq]
    rw [ih hds]
    simp [hd]

/-- Splitting at an explicit separator: everything before the separator
splits as if terminated there, everything after splits independently. -/
theorem splitSemiChars_append_semi (xs ys : List Char) :
    splitSemiChars (xs ++ ';' :: ys)
      = (splitSemiChars (xs ++ [';'])).dropLast ++ splitSemiChars ys := by
  induction xs with
  | nil =>
    cases hy : splitSemiChars ys with
    | nil => exact absurd hy (splitSemiChars_ne_nil ys)
    | cons p ps =>
      simp [splitSemiChars, hy]
  | cons c xs ih =>
    cases h2 : splitSemiChars (xs ++ [';']) with
    | nil => exact absurd h2 (splitSemiChars_ne_nil _)
    | cons q qs =>
      have hq : qs ≠ [] := by
        have hlen := splitSemiChars_length (xs ++ [';'])
        rw [h2] at hlen
        intro hqs
        subst hqs
        simp only [List.length_cons, List.length_nil, List.count_append,
          List.count_cons, List.count_nil, beq_self_eq_true, if_true] at hlen
        omega
      rw [h2, List.dropLast_cons_of_ne_nil hq] at ih
      simp only [List.cons_append] at ih
      simp only [List.cons_append, splitSemiChars, List.append_eq]
      rw [ih, h2]
      by_cases hc : c = ';'
      · subst hc
        simp only [eq_self_iff_true, if_true]
        rw [List.dropLast_cons_of_ne_nil (List.cons_ne_nil q qs),
          List.dropLast_cons_of_ne_nil hq]
        simp [List.cons_append]
      · simp only [if_neg hc, List.headD_cons, List.tail_cons]
        rw [List.dropLast_cons_of_ne_nil hq]
        simp [List.cons_append]

/-! ### Decimal printing / parsing round trip -/

theorem digitChar_isDigit : ∀ n, n < 10 → (digitChar n).isDigit = true := by decide

theorem digitChar_toNat : ∀ n, n < 10 → (digitChar n).toNat = 48 + n := by decide

theorem digitChar_ne_semi : ∀ n, n < 10 → digitChar n ≠ ';' := by decide

theorem digitChar_ne_minus : ∀ n, n < 10 → digitChar n ≠ '-' := by decide

theorem digitChar_ne_plus : ∀ n, n < 10 → digitChar n ≠ '+' := by decide

theorem digitChar_not_space : ∀ n, n < 10 → isPySpace (digitChar n) = false := by decide

theorem natDigitsAux_mem : ∀ fuel n c, c ∈ natDigitsAux fuel n →
    ∃ k, k < 10 ∧ c = digitChar k := by
  intro fuel
  induction fuel with
  | zero => intro n c hc; simp [natDigitsAux] at hc
  | succ fuel ih =>
    intro n c hc
    simp only [natDigitsAux] at hc
    by_cases h : n < 10
    · rw [if_pos h] at hc
      simp at hc
      exact ⟨n, h, hc⟩
    · rw [if_neg h] at hc
      rcases List.mem_append.mp hc with h1 | h2
      · exact ih (n / 10) c h1
      · simp at h2
        exact ⟨n % 10, Nat.mod_lt _ (by omega), h2⟩

theorem natDigitsAux_ne_nil (fuel n : Nat) : natDigitsAux (fuel + 1) n ≠ [] := by
  simp only [natDigitsAux]
  by_cases h : n < 10
  · rw [if_pos h]; simp
  · rw [if_neg h]; simp

theorem pyIntNat_append (xs : List Char) (c : Char) :
    pyIntNat (xs ++ [c]) = pyIntNat xs * 10 + (c.toNat - 48) := by
  simp [pyIntNat, List.foldl_append]

theorem pyIntNat_natDigitsAux : ∀ fuel n, n < fuel →
    pyIntNat (natDigitsAux fuel n) = n := by
  intro fuel
  induction fuel with
  | zero => intro n hn; omega
  | succ fuel ih =>
    intro n hn
    simp only [natDigitsAux]
    by_cases h : n < 10
    · rw [if_pos h]
      show pyIntNat [digitChar n] = n
      simp [pyIntNat, digitChar_toNat n h]
    · rw [if_neg h]
      have hdiv : n / 10 < fuel := by
        have h1 : n / 10 < n := Nat.div_lt_self (by omega) (by omega)
        omega
      rw [pyIntNat_append, ih (n / 10) hdiv, digitChar_toNat (n % 10) (Nat.mod_lt _ (by omega))]
      omega

theorem natStr_data (n : Nat) : (natStr n).data = natDigitsAux (n + 1) n := rfl

theorem natStr_mem_digitChar (n : Nat) (c : Char) (hc : c ∈ (natStr n).data) :
    ∃ k, k < 10 ∧ c = digitChar k :=
  natDigitsAux_mem (n + 1) n c (natStr_data n ▸ hc)

theorem natStr_data_ne_nil (n : Nat) : (natStr n).data ≠ [] := by
  rw [natStr_data]; exact natDigitsAux_ne_nil n n

theorem pyIsDigit_natStr (n : Nat) : pyIsDigit (natStr n) = true := by
  unfold pyIsDigit
  rw [Bool.and_eq_true]
  constructor
  · cases hl : (natStr n).data with
    | nil => exact absurd hl (natStr_data_ne_nil n)
    | cons c cs => rfl
  · rw [List.all_eq_true]
    intro c hc
    obtain ⟨k, hk, rfl⟩ := natStr_mem_digitChar n c hc
    exact digitChar_isDigit k hk

theorem pyInt_natStr (n : Nat) : pyInt (natStr n) = n :=
  pyIntNat_natDigitsAux (n + 1) n (Nat.lt_succ_self n)

theorem natStr_no_semi (n : Nat) : ';' ∉ (natStr n).data := by
  intro hm
  obtain ⟨k, hk, hc⟩ := natStr_mem_digitChar n ';' hm
  exact digitChar_ne_semi k hk hc.symm

theorem intStr_ofNat (n : Nat) : intStr (n : Int) = natStr n := by
  unfold intStr
  rw [if_neg (by omega : ¬(n : Int) < 0)]
  norm_num

theorem intStr_no_semi (i : Int) : ';' ∉ (intStr i).data := by
  unfold intStr
  split
  · rw [String.data_append]
    intro hm
    rcases List.mem_append.mp hm with h1 | h2
    · exact absurd h1 (by decide)
    · exact natStr_no_semi _ h2
  · exact natStr_no_semi _

theorem parseTs_intStr_nonneg (i : Int) (h : 0 ≤ i) (fb : Int) :
    parseTs (intStr i) fb = i := by
  obtain ⟨n, rfl⟩ := Int.eq_ofNat_of_zero_le h
  unfold parseTs
  rw [intStr_ofNat, if_pos (pyIsDigit_natStr n), pyInt_natStr]

theorem parseTs_empty (fb : Int) : parseTs "" fb = fb := rfl

/-! ### `pyStrip` and `pyToInt` on printed integers -/

theorem dropWhileSpace_eq_self (l : List Char) (h : ∀ c ∈ l, isPySpace c = false) :
    l.dropWhile isPySpace = l := by
  cases l with
  | nil => rfl
  | cons c cs =>
    rw [List.dropWhile_cons, h c (List.mem_cons_self c cs)]
    simp

theorem pyStrip_eq_self (s : String) (h : ∀ c ∈ s.data, isPySpace c = false) :
    pyStrip s = s := by
  unfold pyStrip
  rw [dropWhileSpace_eq_self s.data h,
    dropWhileSpace_eq_self s.data.reverse (fun c hc => h c (List.mem_reverse.mp hc)),
    List.reverse_reverse]

theorem intStr_not_space (i : Int) : ∀ c ∈ (intStr i).data, isPySpace c = false := by
  intro c hc
  unfold intStr at hc
  split at hc
  · rw [String.data_append] at hc
    rcases List.mem_append.mp hc with h1 | h2
    · have : c = '-' := by simpa using h1
      subst this; decide
    · obtain ⟨k, hk, rfl⟩ := natStr_mem_digitChar _ c h2
      exact digitChar_not_space k hk
  · obtain ⟨k, hk, rfl⟩ := natStr_mem_digitChar _ c hc
    exact digitChar_not_space k hk

theorem pyStrip_intStr (i : Int) : pyStrip (intStr i) = intStr i :=
  pyStrip_eq_self _ (intStr_not_space i)

theorem natStr_headD_digit (n : Nat) : ∃ k, k < 10 ∧ (natStr n).data.headD ' ' = digitChar k := by
  cases hl : (natStr n).data with
  | nil => exact absurd hl (natStr_data_ne_nil n)
  | cons c cs =>
    simp only [List.headD_cons]
    exact natStr_mem_digitChar n c (hl ▸ List.mem_cons_self c cs)

theorem pyToInt_natStr (n : Nat) : pyToInt (natStr n) = some (n : Int) := by
  unfold pyToInt
  rw [pyStrip_eq_self _ (fun c hc => by
    obtain ⟨k, hk, rfl⟩ := natStr_mem_digitChar n c hc
    exact digitChar_not_space k hk)]
  obtain ⟨k, hk, hhead⟩ := natStr_headD_digit n
  have hm : ¬((natStr n).data.headD ' ' = '-' ∨ (natStr n).data.headD ' ' = '+') := by
    rw [hhead]
    push_neg
    exact ⟨digitChar_ne_minus k hk, digitChar_ne_plus k hk⟩
  simp only [if_neg hm]
  have hdig : (!(natStr n).data.isEmpty && (natStr n).data.all fun c => c.isDigit) = true := by
    have := pyIsDigit_natStr n
    unfold pyIsDigit at this
    exact this
  rw [if_pos hdig, if_neg (fun hmin => hm (Or.inl hmin))]
  have : pyIntNat (natStr n).data = n := pyInt_natStr n
  rw [this]

theorem pyToInt_intStr (i : Int) : pyToInt (intStr i) = some i := by
  by_cases h : i < 0
  · have hrepr : intStr i = "-" ++ natStr (-i).toNat := by
      unfold intStr
      rw [if_pos h]
    unfold pyToInt
    rw [pyStrip_intStr, hrepr, String.data_append]
    have hdata : ("-" : String).data ++ (natStr (-i).toNat).data
        = '-' :: (natStr (-i).toNat).data := rfl
    rw [hdata]
    have hne : (natStr (-i).toNat).data ≠ [] := natStr_data_ne_nil _
    have hall : ((natStr (-i).toNat).data.all fun c => c.isDigit) = true := by
      have := pyIsDigit_natStr (-i).toNat
      unfold pyIsDigit at this
      rw [Bool.and_eq_true] at this
      exact this.2
    have hnotE : (!(natStr (-i).toNat).data.isEmpty) = true := by
      cases hl : (natStr (-i).toNat).data with
      | nil => exact absurd hl hne
      | cons c cs => rfl
    simp only [List.headD_cons, List.tail_cons, eq_self_iff_true, true_or, if_true]
    rw [if_pos (by rw [Bool.and_eq_true]; exact ⟨hnotE, hall⟩)]
    have hval : pyIntNat (natStr (-i).toNat).data = (-i).toNat := pyInt_natStr _
    rw [hval]
    congr 1
    omega
  · have h0 : 0 ≤ i := by omega
    obtain ⟨n, rfl⟩ := Int.eq_ofNat_of_zero_le h0
    rw [intStr_ofNat]
    exact pyToInt_natStr n

/-! ### String-level split lemmas -/

theorem mk_data (s : String) : String.mk s.data = s := by
  cases s
  rfl

theorem semi_data : (";" : String).data = [';'] := rfl

theorem pySplit_ne_nil (s : String) : pySplit s ≠ [] := by
  unfold pySplit
  intro h
  rw [List.map_eq_nil_iff] at h
  exact splitSemiChars_ne_nil s.data h

theorem pySplit_length (s : String) : (pySplit s).length = s.data.count ';' + 1 := by
  unfold pySplit
  rw [List.length_map, splitSemiChars_length]

/-- A semicolon-terminated message splits into an initial segment plus a final
empty part; appending one more `;`-terminated separator-free field `D` appends
the parts `[D, ""]` in place of the trailing `""`. -/
theorem pySplit_append_block (x D : String) (hD : ';' ∉ D.data) :
    pySplit (x ++ ";" ++ D ++ ";") = (pySplit (x ++ ";")).dropLast ++ [D, ""] := by
  unfold pySplit
  have hdata : (x ++ ";" ++ D ++ ";").data = x.data ++ ';' :: (D.data ++ [';']) := by
    simp [String.data_append, semi_data]
  have hdata2 : (x ++ ";").data = x.data ++ [';'] := by
    simp [String.data_append, semi_data]
  rw [hdata, hdata2, splitSemiChars_append_semi, splitSemiChars_no_semi_append D.data hD,
    List.map_append, ← List.map_dropLast]
  congr 1

theorem pySplit_semi_end (x : String) :
    pySplit (x ++ ";") = (pySplit (x ++ ";")).dropLast ++ [""] := by
  unfold pySplit
  have hdata2 : (x ++ ";").data = x.data ++ ';' :: [] := by
    simp [String.data_append, semi_data]
  conv_lhs => rw [hdata2]
  rw [splitSemiChars_append_semi]
  rw [List.map_append, ← List.map_dropLast]
  have hdata3 : (x ++ ";").data = x.data ++ [';'] := by
    simp [String.data_append, semi_data]
  rw [hdata3]
  rfl

/-- `parts[-1]` of any `;`-terminated message is the empty string. -/
theorem pyLast_semi_end (x : String) : pyLast (pySplit (x ++ ";")) = "" := by
  unfold pyLast
  rw [pySplit_semi_end x, List.getLastD_concat]

/-- `parts[-2]` of `x ++ ";" ++ D ++ ";"` is `D` when `D` has no separator. -/
theorem pyIdxNeg2_block (x D : String) (hD : ';' ∉ D.data) :
    pyIdxNeg2 (pySplit (x ++ ";" ++ D ++ ";")) = some D := by
  unfold pyIdxNeg2
  rw [pySplit_append_block x D hD, List.reverse_append]
  have h2 : ([D, ""] : List String).reverse = ["", D] := rfl
  rw [h2]
  rfl

theorem pySplit_sanity : pySplit "1;1;100;" = ["1", "1", "100", ""] := rfl

theorem pyStrip_sanity : pyStrip " ping\n" = "ping" := rfl

theorem intStr_sanity : intStr (-57) = "-57" ∧ intStr 1005 = "1005" := ⟨rfl, rfl⟩

theorem pyToInt_sanity : pyToInt "007" = some 7 ∧ pyToInt "T0" = none := ⟨rfl, rfl⟩

theorem parseTs_sanity : parseTs "1004" 33 = 1004 ∧ parseTs "" 33 = 33 := ⟨rfl, rfl⟩

/-! ## Python exception kinds raised by the modelled code -/

inductive PyError where
  | typeError
  | valueError
  | indexError
  | attributeError (missing : String)
  deriving DecidableEq, Repr

/-! ## Message stamping (`load_balancer_proxy.py`, `service_proxy.py`, `source.py`)

Each call to `get_current_millis()` in the source is modelled by one explicit
`Int` parameter, in source order.  All functions append to the message string
exactly as the Python `+=` does and never modify existing content. -/

/-- `load_balancer_proxy.py:221 _register_time_when_arrives_lb`:
reads `parts[-1].strip()`, parses it with a current-time fallback, and appends
`f"{time_now};{duration};"`. -/
def registerTimeWhenArrivesLB (receivedMessage : String) (fallbackNow timeNow : Int) :
    String :=
  let parts := pySplit receivedMessage
  let lastTimestampStr := pyStrip (pyLast parts)
  let lastTimestamp := parseTs lastTimestampStr fallbackNow
  let duration := timeNow - lastTimestamp
  receivedMessage ++ intStr timeNow ++ ";" ++ intStr duration ++ ";"

/-- `service_proxy.py:126 _register_time_when_arrives`: identical computation
to the load-balancer variant (duplicated in the source). -/
def registerTimeWhenArrives (receivedMessage : String) (fallbackNow timeNow : Int) :
    String :=
  let parts := pySplit receivedMessage
  let lastTimestampStr := pyStrip (pyLast parts)
  let lastTimestamp := parseTs lastTimestampStr fallbackNow
  let duration := timeNow - lastTimestamp
  receivedMessage ++ intStr timeNow ++ ";" ++ intStr duration ++ ";"

/-- `service_proxy.py:150 _register_time_when_go_out`: reads `parts[-2]`
(raising `IndexError`, modelled as `none`, when fewer than two parts exist),
computes a dead first duration that is immediately recomputed, and appends
`f"{current_time_out};{duration_process};"`.  Note `parts[-2]` at this point
is the previous *duration* field, not the arrival timestamp the code's
variable names suggest. -/
def registerTimeWhenGoOut (receivedMessage : String)
    (tProcessingStart tFallback1 tCurrentOut tFallback2 : Int) : Option String :=
  let parts := pySplit receivedMessage
  match pyIdxNeg2 parts with
  | none => none
  | some p2 =>
    let _deadDuration := tProcessingStart - parseTs (pyStrip p2) tFallback1
    let arrivalTimestamp := parseTs p2 tFallback2
    let durationProcess := tCurrentOut - arrivalTimestamp
    some (receivedMessage ++ intStr tCurrentOut ++ ";" ++ intStr durationProcess ++ ";")

/-- `service_proxy.py:182 _register_mrt_at_the_end`: reads `parts[2]` and
`parts[-2]` (no `try` around the indexing — `none` models `IndexError`), and
appends `f"RESPONSE TIME:;{current_mrt};"`. -/
def registerMrtAtTheEnd (receivedMessage : String) (tFallbackFirst tFallbackLast : Int) :
    Option String :=
  let parts := pySplit receivedMessage
  match parts.get? 2, pyIdxNeg2 parts with
  | some firstStr, some lastStr =>
    let firstTimestamp := parseTs firstStr tFallbackFirst
    let lastTimestamp := parseTs lastStr tFallbackLast
    let currentMrt := lastTimestamp - firstTimestamp
    some (receivedMessage ++ "RESPONSE TIME:;" ++ intStr currentMrt ++ ";")
  | _, _ => none

/-- `source.py:288 _register_mrt_at_the_end_source`: `parts[-2]` and `parts[2]`
are read outside the `try`, so a missing index is an uncaught `IndexError`
(`Except.error`); an `int()` `ValueError` is caught and returns the message
unchanged; otherwise `f"TEMPO DE RESPOSTA:;{current_mrt};"` is appended. -/
def registerMrtAtTheEndSource (receivedMessage : String) : Except PyError String :=
  let parts := pySplit receivedMessage
  match pyIdxNeg2 parts, parts.get? 2 with
  | some lastTimestampStr, some firstTimestampStr =>
    match pyToInt lastTimestampStr, pyToInt firstTimestampStr with
    | some lastTimestamp, some firstTimestamp =>
      .ok (receivedMessage ++ "TEMPO DE RESPOSTA:;"
        ++ intStr (lastTimestamp - firstTimestamp) ++ ";")
    | _, _ => .ok receivedMessage
  | _, _ => .error .indexError

/-! ## Node transport reader and handler arity (`abstract_proxy.py`)

`_handle_client_connection` (line 116) invokes
`self.receiving_messages(message.strip(), conn)` — two positional arguments
besides `self`.  Each concrete class defines `receiving_messages` with a
single message parameter besides `self`
(`load_balancer_proxy.py:146`, `service_proxy.py:98`, `source.py:266`). -/

inductive NodeType where
  | loadBalancerProxy
  | serviceProxy
  | source
  deriving DecidableEq, Repr

/-- Number of parameters besides `self` in each concrete class's
`receiving_messages` definition (taken from the `def` line of each class). -/
def receivingMessagesParamCount : NodeType → Nat
  | .loadBalancerProxy => 1
  | .serviceProxy => 1
  | .source => 1

/-- Number of positional arguments besides `self` supplied by the reader's
call `self.receiving_messages(message.strip(), conn)` at
`abstract_proxy.py:116`. -/
def handlerInvocationArgCount : Nat := 2

/-- Python call semantics for a fixed-arity method with no defaults or
varargs: a positional-argument count different from the parameter count
raises `TypeError` before the body runs. -/
def callReceivingMessages {σ : Type} (nt : NodeType) (argCount : Nat)
    (handler : σ → String → σ) (st : σ) (line : String) : Except PyError σ :=
  if argCount = receivingMessagesParamCount nt then .ok (handler st line)
  else .error .typeError

/-- `abstract_proxy.py:96 _handle_client_connection`, restricted to one burst
of already-framed complete lines: each line is dispatched in order; the first
exception is caught by the surrounding generic `except` and ends the reader
task (the remaining lines are never dispatched).  Returns the node state and
the caught exception, if any. -/
def handleClientConnection {σ : Type} (nt : NodeType) (handler : σ → String → σ) :
    List String → σ → σ × Option PyError
  | [], st => (st, none)
  | line :: rest, st =>
    match callReceivingMessages nt handlerInvocationArgCount handler st line with
    | .ok st' => handleClientConnection nt handler rest st'
    | .error e => (st, some e)

/-! ## LoadBalancerProxy (`load_balancer_proxy.py`) -/

structure LBState where
  queue : List String
  queueLoadBalancerMaxSize : Nat
  serviceAddresses : List (String × Int)
  localPort : Int
  deriving DecidableEq, Repr

/-- `load_balancer_proxy.py:179 _simulate_is_free`:
`len(self.queue) < self.queue_load_balancer_max_size`. -/
def lbSimulateIsFree (st : LBState) : Bool :=
  decide (st.queue.length < st.queueLoadBalancerMaxSize)

/-- `load_balancer_proxy.py:187 _change_service_targets_of_this_server`:
`int(parts[1])` (uncaught `ValueError`/`IndexError` on a malformed payload),
then the address list is cleared and rebuilt as `localhost` entries on the
contiguous ports `local_port + 1 ..`. -/
def changeServiceTargets (st : LBState) (configMessage : String) :
    Except PyError LBState :=
  let parts := pySplit configMessage
  match parts.get? 1 with
  | none => .error .indexError
  | some s =>
    match pyToInt s with
    | none => .error .valueError
    | some newQtdServices =>
      let addrs := (List.range newQtdServices.toNat).map
        (fun i => (("localhost" : String), st.localPort + 1 + (i : Int)))
      .ok { st with serviceAddresses := addrs }

/-- Result of one inbound line at the load balancer: the new state, the lines
written back on the inbound connection, and whether the queue-full drop log
line was emitted. -/
structure LBRecvResult where
  state : LBState
  responses : List String
  dropped : Bool
  deriving DecidableEq, Repr

/-- `load_balancer_proxy.py:146 receiving_messages`: empty lines are ignored;
`config;N` rewrites the address set; `ping` computes `"free"`/`"busy"` into a
local variable and then does `pass` — nothing is ever written back; any other
line is appended to the queue iff `len(queue) < max`, else dropped with a log
line. -/
def lbReceivingMessages (st : LBState) (receivedMessage : String) :
    Except PyError LBRecvResult :=
  if pyStrip receivedMessage = "" then .ok ⟨st, [], false⟩
  else
    let messageStripped := pyStrip receivedMessage
    if pyStartsWith messageStripped "config;" then
      (changeServiceTargets st messageStripped).map (fun st' => ⟨st', [], false⟩)
    else if messageStripped = "ping" then
      .ok ⟨st, [], false⟩
    else if st.queue.length < st.queueLoadBalancerMaxSize then
      .ok ⟨{ st with queue := st.queue ++ [messageStripped] }, [], false⟩
    else
      .ok ⟨st, [], true⟩

/-- `load_balancer_proxy.py:99 _process_queue`: pop the head, probe the
managed addresses in order, and on the first free one stamp the arrival pair,
append one extra bare send timestamp, and send; if none is free push the
message back at the head (`queue.insert(0, msg)`).
`free` gives each address's ping outcome (`is_destiny_free` and
`send_message_to_destiny` catch all their own exceptions, so the per-address
`except` in this loop is unreachable).  Returns the new state and the list of
`(payload, address)` pairs passed to `send_message_to_destiny`. -/
def lbProcessQueue (st : LBState) (free : String × Int → Bool)
    (fallbackNow timeNow sendNow : Int) :
    LBState × List (String × (String × Int)) :=
  match st.queue with
  | [] => (st, [])
  | msg :: rest =>
    match st.serviceAddresses.find? free with
    | some addr =>
      let stamped := registerTimeWhenArrivesLB msg fallbackNow timeNow
      let msgToSend := stamped ++ intStr sendNow ++ ";"
      ({ st with queue := rest }, [(msgToSend ++ "\n", addr)])
    | none => (st, [])

/-- One load-balancer-side event: an inbound line handled by
`receiving_messages` (a raised exception leaves the queue unchanged), or one
iteration of the `run`-loop's `_process_queue`. -/
inductive LBEvent where
  | recv (line : String)
  | dispatch (free : String × Int → Bool) (fallbackNow timeNow sendNow : Int)

def lbStep (st : LBState) : LBEvent → LBState
  | .recv line =>
    match lbReceivingMessages st line with
    | .ok r => r.state
    | .error _ => st
  | .dispatch free fallbackNow timeNow sendNow =>
    (lbProcessQueue st free fallbackNow timeNow sendNow).1

def lbRun (st : LBState) (events : List LBEvent) : LBState :=
  events.foldl lbStep st

/-! ## ServiceProxy (`service_proxy.py`) -/

/-- `service_proxy.py:115 _simulate_is_free`: `not bool(self.queue)`. -/
def serviceSimulateIsFree (queue : List String) : Bool := queue.isEmpty

/-- `service_proxy.py:98 receiving_messages`: `ping` goes to
`_handle_ping_message`, whose body is `pass` (no response is written);
every other line is appended to the queue unconditionally.
Returns the new queue and the lines written back on the connection. -/
def serviceReceivingMessages (queue : List String) (receivedMessage : String) :
    List String × List String :=
  if pyStrip receivedMessage = "ping" then (queue, [])
  else (queue ++ [pyStrip receivedMessage], [])

/-- `service_proxy.py:42 process_and_send_to_destiny`, one iteration:
pop the head message, stamp arrival and exit pairs, then either append the
response-time marker and send to the source (terminal), or wait until the
destination reports free and send (`destinyEventuallyFree = false` models the
wait being abandoned because `is_running` was cleared, in which case nothing
is sent).  `none` models an uncaught `IndexError` from the stamping helpers.
Returns the new queue and the payloads passed to `send_message_to_destiny`. -/
def serviceProcessAndSendToDestiny (targetIsSource : Bool) (queue : List String)
    (destinyEventuallyFree : Bool)
    (tArrFallback tArrNow tStart tFb1 tOut tFb2 tMrtFb1 tMrtFb2 : Int) :
    Option (List String × List String) :=
  match queue with
  | [] => some ([], [])
  | msg :: rest =>
    let m1 := registerTimeWhenArrives msg tArrFallback tArrNow
    match registerTimeWhenGoOut m1 tStart tFb1 tOut tFb2 with
    | none => none
    | some m2 =>
      if targetIsSource then
        match registerMrtAtTheEnd m2 tMrtFb1 tMrtFb2 with
        | none => none
        | some m3 => some (rest, [m3 ++ "\n"])
      else
        if destinyEventuallyFree then some (rest, [m2 ++ "\n"])
        else some (rest, [])

/-! ## Source (`source.py`) -/

/-- `source.py:411 _simulate_is_free`: always `True`. -/
def sourceSimulateIsFree : Bool := true

structure SourceFeedingState where
  consideredMessages : List String
  maxConsideredMessagesExpected : Nat
  deriving DecidableEq, Repr

/-- `source.py:320 execute_first_stage_of_model_feeding`: the message is
always appended to `considered_messages`; then `int(msg.split(";")[1])` is
parsed (errors caught → no trigger), and the T-value computation plus
`sys.exit(0)` fire iff the parsed sequence index equals the literal `2`.
The returned `Bool` is whether the computation-and-exit was triggered. -/
def executeFirstStageOfModelFeeding (st : SourceFeedingState)
    (receivedMessage : String) : SourceFeedingState × Bool :=
  let st' := { st with consideredMessages := st.consideredMessages ++ [receivedMessage] }
  match (pySplit receivedMessage).get? 1 with
  | none => (st', false)
  | some idxStr =>
    match pyToInt idxStr with
    | none => (st', false)
    | some indexFromMessage => (st', indexFromMessage == 2)

/-! ## Connection pool: `is_destiny_free` and `send_message_to_destiny`
(`abstract_proxy.py`)

The pool is modelled as the list of addresses holding a live pooled outbound
connection (`_outbound_connections` keys; pooled sockets are taken to pass the
`_is_socket_connected` liveness check, which is environmental).  The I/O
outcome of one probe/send is an explicit parameter. -/

/-- Outcome of the network I/O during one `is_destiny_free` call. -/
inductive PingOutcome where
  | connectTimeout
  | connectError
  | timeout
  | ioError
  | response (line : String)
  deriving DecidableEq, Repr

def poolAfterGetOrCreate (pool : List (String × Int)) (addr : String × Int) :
    List (String × Int) :=
  if addr ∈ pool then pool else pool ++ [addr]

/-- `del self._outbound_connections[target_key]` guarded by a membership
test. -/
def evictAddr (pool : List (String × Int)) (addr : String × Int) :
    List (String × Int) :=
  pool.filter (fun k => decide (k ≠ addr))

/-- `abstract_proxy.py:213 is_destiny_free`: writes `ping\n`, reads one line,
returns `response == "free"` after `.strip()`.  `socket.timeout` (during
connect or read) returns `False` without touching the pool; any other
exception runs the eviction block and returns `False`.  A successful
`_get_or_create_outbound_connection` leaves the address pooled. -/
def is_destiny_free (pool : List (String × Int)) (addr : String × Int)
    (outcome : PingOutcome) : Bool × List (String × Int) :=
  match outcome with
  | .connectTimeout => (false, pool)
  | .connectError => (false, evictAddr pool addr)
  | .timeout => (false, poolAfterGetOrCreate pool addr)
  | .ioError => (false, evictAddr (poolAfterGetOrCreate pool addr) addr)
  | .response line => (pyStrip line == "free", poolAfterGetOrCreate pool addr)

/-- Outcome of the network I/O during one `send_message_to_destiny` call. -/
inductive SendOutcome where
  | ok
  | connectError
  | writeError
  deriving DecidableEq, Repr

/-- `abstract_proxy.py:190 send_message_to_destiny`: `sendall` the payload;
on any exception, log, close and evict the pooled entry — the `except` block
re-raises nothing, so the caller never observes the failure.  Returns the
exception propagated to the caller (always `none`) and the new pool. -/
def send_message_to_destiny (pool : List (String × Int)) (addr : String × Int)
    (outcome : SendOutcome) : Option PyError × List (String × Int) :=
  match outcome with
  | .ok => (none, poolAfterGetOrCreate pool addr)
  | .connectError => (none, evictAddr pool addr)
  | .writeError => (none, evictAddr (poolAfterGetOrCreate pool addr) addr)

/-! ## Class attributes and constructors (`abstract_proxy.py`,
`service_proxy.py`, `source.py`) -/

/-- The attributes defined on `class AbstractProxy` in `abstract_proxy.py`
(its base `threading.Thread` defines no `register_proxy` either). -/
def abstractProxyClassAttrs : List String :=
  ["__init__", "init_log_file", "log", "start_listening", "_accept_connections",
   "_handle_client_connection", "_get_or_create_outbound_connection",
   "_is_socket_connected", "send_message_to_destiny", "is_destiny_free",
   "stop_proxy", "run", "receiving_messages", "_simulate_is_free"]

def abstractProxyHasAttr (name : String) : Bool :=
  abstractProxyClassAttrs.contains name

structure ServiceProxyState where
  proxyName : String
  localPort : Int
  serviceTime : Int
  std : Int
  targetIsSource : Bool
  interrupt : Bool
  queue : List String
  isRunning : Bool
  deriving DecidableEq, Repr

/-- `service_proxy.py:21 ServiceProxy.__init__` (file I/O and socket binding
in `AbstractProxy.__init__` taken to succeed): after the field assignments,
line 32 evaluates the class attribute `AbstractProxy.register_proxy`, which
does not exist → `AttributeError`. -/
def serviceProxyInit (name : String) (localPort : Int) (serviceTime std : Int)
    (targetIsSource : Bool) : Except PyError ServiceProxyState :=
  let st : ServiceProxyState :=
    { proxyName := name, localPort := localPort, serviceTime := serviceTime,
      std := std, targetIsSource := targetIsSource, interrupt := false,
      queue := [], isRunning := true }
  if abstractProxyHasAttr "register_proxy" then .ok st
  else .error (.attributeError "register_proxy")

structure SourceState where
  modelFeedingStage : Bool
  localPort : Int
  targetAddress : String × Int
  maxConsideredMessagesExpected : Nat
  arrivalDelay : Int
  consideredMessages : List String
  sourceCurrentIndexMessage : Nat
  droppCount : Nat
  deriving DecidableEq, Repr

/-- `source.py:21 Source.__init__` (file I/O and property parsing taken to
succeed — each parse failure would raise even earlier): after the field
assignments, line 90 evaluates `AbstractProxy.register_proxy`, which does not
exist → `AttributeError`. -/
def sourceInit (modelFeedingStage : Bool) (localPort : Int)
    (targetAddress : String × Int) (maxConsideredMessagesExpected : Nat)
    (arrivalDelay : Int) : Except PyError SourceState :=
  let st : SourceState :=
    { modelFeedingStage := modelFeedingStage, localPort := localPort,
      targetAddress := targetAddress,
      maxConsideredMessagesExpected := maxConsideredMessagesExpected,
      arrivalDelay := arrivalDelay, consideredMessages := [],
      sourceCurrentIndexMessage := 1, droppCount := 0 }
  if abstractProxyHasAttr "register_proxy" then .ok st
  else .error (.attributeError "register_proxy")

/-! ## Shared helper lemmas about the embedded operations -/

theorem not_mem_evictAddr (pool : List (String × Int)) (addr : String × Int) :
    addr ∉ evictAddr pool addr := by
  unfold evictAddr
  intro hm
  have h2 := (List.mem_filter.mp hm).2
  simp at h2

theorem count_semi_intStr (i : Int) : (intStr i).data.count ';' = 0 :=
  List.count_eq_zero.mpr (intStr_no_semi i)

/-! ## Claim theorems -/

/-- C1: the transport's per-connection reader (`abstract_proxy.py:116`)
invokes `receiving_messages` with two arguments while every subclass defines
it with a single message parameter, so every complete inbound line raises a
`TypeError`, caught by the reader's generic handler, terminating the reader
task — the node state is unchanged and no line is ever handed to a subclass
handler. -/
theorem c1_socket_reader_always_typeErrors {σ : Type} (nt : NodeType)
    (handler : σ → String → σ) (lines : List String) (st : σ)
    (h : lines ≠ []) :
    handleClientConnection nt handler lines st = (st, some .typeError) := by
  cases lines with
  | nil => exact absurd rfl h
  | cons line rest =>
    have hcall : callReceivingMessages nt handlerInvocationArgCount handler st line
        = .error .typeError := by
      unfold callReceivingMessages handlerInvocationArgCount
      cases nt <;> rfl
    unfold handleClientConnection
    rw [hcall]

theorem c1_socket_reader_always_typeErrors_witness :
    handleClientConnection .loadBalancerProxy
        (fun (q : List String) l => q ++ [l]) ["1;1;100;"] []
      = ([], some .typeError) :=
  c1_socket_reader_always_typeErrors .loadBalancerProxy
    (fun q l => q ++ [l]) ["1;1;100;"] [] (by decide)

/-- C4 (code bug): at the exact inbound line `ping`, no node ever writes a
response back on the connection: the load balancer computes
`"free"`/`"busy"` into a local and then `pass`es
(`load_balancer_proxy.py:158-168`), and the service's `_handle_ping_message`
body is `pass` (`service_proxy.py:111-113`).  The liveness predicates do
match the claim (`queue.size < maxSize`, slot empty) but their value is never
sent.  Evaluated here at a free load balancer and a free service. -/
theorem c4_ping_never_answered :
    lbReceivingMessages ⟨[], 1, [], 2000⟩ "ping" = .ok ⟨⟨[], 1, [], 2000⟩, [], false⟩
    ∧ serviceReceivingMessages [] "ping" = ([], [])
    ∧ lbSimulateIsFree ⟨[], 1, [], 2000⟩ = true
    ∧ serviceSimulateIsFree [] = true := by
  refine ⟨rfl, rfl, rfl, rfl⟩

/-- C5: `is_destiny_free` returns `true` iff the single response line read
after sending `ping\n` strips to exactly `free`; every timeout, I/O error or
non-`free` response yields `false`; and on an error (an exception other than
`socket.timeout`) the pooled connection for the address is evicted, so the
next probe reconnects. -/
theorem c5_is_destiny_free_spec (pool : List (String × Int))
    (addr : String × Int) (line : String) :
    ((is_destiny_free pool addr (.response line)).1 = true ↔ pyStrip line = "free")
    ∧ (is_destiny_free pool addr .connectTimeout).1 = false
    ∧ (is_destiny_free pool addr .timeout).1 = false
    ∧ (is_destiny_free pool addr .connectError).1 = false
    ∧ (is_destiny_free pool addr .ioError).1 = false
    ∧ addr ∉ (is_destiny_free pool addr .connectError).2
    ∧ addr ∉ (is_destiny_free pool addr .ioError).2 := by
  refine ⟨?_, rfl, rfl, rfl, rfl, ?_, ?_⟩
  · unfold is_destiny_free
    exact beq_iff_eq
  · exact not_mem_evictAddr pool addr
  · exact not_mem_evictAddr (poolAfterGetOrCreate pool addr) addr

/-- C6 counterexample: after a write failure, `send_message_to_destiny`
raises nothing to its caller (it returns normally), refuting the claim that
the failure is propagated. -/
theorem c6_counterexample :
    (send_message_to_destiny [("localhost", 2000)] ("localhost", 2000)
        .writeError).1 = none
    ∧ ("localhost", (2000 : Int)) ∉
        (send_message_to_destiny [("localhost", 2000)] ("localhost", 2000)
          .writeError).2 := by
  refine ⟨rfl, ?_⟩
  exact not_mem_evictAddr _ _

/-- C6 (amended): when `send_message_to_destiny` fails to connect or write,
it closes and evicts the pooled entry for the address, but its `except` block
swallows the exception — the caller observes a normal return, never the
failure. -/
theorem c6_send_failure_evicts_and_swallows (pool : List (String × Int))
    (addr : String × Int) :
    (send_message_to_destiny pool addr .connectError).1 = none
    ∧ (send_message_to_destiny pool addr .writeError).1 = none
    ∧ addr ∉ (send_message_to_destiny pool addr .connectError).2
    ∧ addr ∉ (send_message_to_destiny pool addr .writeError).2 := by
  refine ⟨rfl, rfl, ?_, ?_⟩
  · exact not_mem_evictAddr pool addr
  · exact not_mem_evictAddr (poolAfterGetOrCreate pool addr) addr

/-- C8 counterexample: a service whose slot already holds a message accepts a
second data message (it is appended, not dropped), so the service holds two
pending messages — refuting single-slot exclusivity. -/
theorem c8_counterexample :
    (serviceReceivingMessages ["1;1;5;"] "1;2;6;").1 = ["1;1;5;", "1;2;6;"]
    ∧ serviceSimulateIsFree ((serviceReceivingMessages ["1;1;5;"] "1;2;6;").1) = false
    ∧ ((serviceReceivingMessages ["1;1;5;"] "1;2;6;").1).length = 2 :=
  ⟨rfl, rfl, rfl⟩

/-- C8 (amended): the service's liveness predicate reports free iff its queue
is empty (it never reports free while occupied), but `receiving_messages`
appends every non-`ping` line unconditionally: an arriving data message is
never dropped, and the queue can hold more than one pending message. -/
theorem c8_busy_service_still_accepts (queue : List String) (line : String)
    (h : pyStrip line ≠ "ping") :
    (serviceSimulateIsFree queue = true ↔ queue = [])
    ∧ (serviceReceivingMessages queue line).1 = queue ++ [pyStrip line] := by
  constructor
  · unfold serviceSimulateIsFree
    exact List.isEmpty_iff
  · unfold serviceReceivingMessages
    rw [if_neg h]

theorem c8_busy_service_still_accepts_witness :
    (serviceSimulateIsFree ["1;1;5;"] = true ↔ ["1;1;5;"] = ([] : List String))
    ∧ (serviceReceivingMessages ["1;1;5;"] "1;2;6;").1
        = ["1;1;5;"] ++ [pyStrip "1;2;6;"] :=
  c8_busy_service_still_accepts ["1;1;5;"] "1;2;6;" (by decide)

/-- C9 counterexample: with `maxConsideredMessagesExpected = 10`, the very
first received message triggers the computation-and-exit when its sequence
index field is `2` (1 sample observed, not 10), while the tenth received
message does not trigger it when its index is `5` (10 samples observed) —
refuting the claim that the trigger fires exactly at the configured sample
count. -/
theorem c9_counterexample :
    ((executeFirstStageOfModelFeeding ⟨[], 10⟩ "1;2;100;").2 = true
      ∧ (executeFirstStageOfModelFeeding ⟨[], 10⟩
          "1;2;100;").1.consideredMessages.length = 1)
    ∧ ((executeFirstStageOfModelFeeding
          ⟨["m1", "m2", "m3", "m4", "m5", "m6", "m7", "m8", "m9"], 10⟩
          "1;5;100;").2 = false
      ∧ (executeFirstStageOfModelFeeding
          ⟨["m1", "m2", "m3", "m4", "m5", "m6", "m7", "m8", "m9"], 10⟩
          "1;5;100;").1.consideredMessages.length = 10) :=
  ⟨⟨rfl, rfl⟩, ⟨rfl, rfl⟩⟩

/-- C9 (amended): in feeding mode the computation-and-exit trigger fires iff
the received message's index field (`split(";")[1]`) parses to the literal
`2`; it is independent of `maxConsideredMessagesExpected` and of how many
samples have been observed, and every received message is appended to the
considered list. -/
theorem c9_trigger_is_hardcoded_index_two (st st2 : SourceFeedingState)
    (msg : String) :
    (executeFirstStageOfModelFeeding st msg).2
        = (executeFirstStageOfModelFeeding st2 msg).2
    ∧ ((executeFirstStageOfModelFeeding st msg).2 = true ↔
        ∃ idxStr, (pySplit msg).get? 1 = some idxStr ∧ pyToInt idxStr = some 2)
    ∧ (executeFirstStageOfModelFeeding st msg).1.consideredMessages
        = st.consideredMessages ++ [msg] := by
  unfold executeFirstStageOfModelFeeding
  cases h1 : (pySplit msg).get? 1 with
  | none => simp [h1]
  | some idxStr =>
    cases h2 : pyToInt idxStr with
    | none => simp [h1, h2]
    | some idx => simp [h1, h2, beq_iff_eq]

/-- Any successful `receiving_messages` call preserves the configured maximum
size and grows the queue only when it was strictly under the maximum. -/
theorem lbRecv_invariant (st : LBState) (line : String) (r : LBRecvResult)
    (h : lbReceivingMessages st line = .ok r) :
    r.state.queueLoadBalancerMaxSize = st.queueLoadBalancerMaxSize
    ∧ r.state.queue.length ≤ max st.queue.length st.queueLoadBalancerMaxSize := by
  unfold lbReceivingMessages at h
  by_cases h1 : pyStrip line = ""
  · rw [if_pos h1] at h
    injection h with h'
    subst h'
    exact ⟨rfl, le_max_left _ _⟩
  · rw [if_neg h1] at h
    by_cases h2 : pyStartsWith (pyStrip line) "config;" = true
    · rw [if_pos h2] at h
      simp only [changeServiceTargets] at h
      split at h
      · simp [Except.map] at h
      · split at h
        · simp [Except.map] at h
        · simp only [Except.map] at h
          injection h with h'
          subst h'
          exact ⟨rfl, le_max_left _ _⟩
    · rw [if_neg h2] at h
      by_cases h3 : pyStrip line = "ping"
      · rw [if_pos h3] at h
        injection h with h'
        subst h'
        exact ⟨rfl, le_max_left _ _⟩
      · rw [if_neg h3] at h
        by_cases h4 : st.queue.length < st.queueLoadBalancerMaxSize
        · rw [if_pos h4] at h
          injection h with h'
          subst h'
          refine ⟨rfl, ?_⟩
          simp only [List.length_append, List.length_cons, List.length_nil]
          omega
        · rw [if_neg h4] at h
          injection h with h'
          subst h'
          exact ⟨rfl, le_max_left _ _⟩

/-- One `_process_queue` iteration preserves the maximum and never grows the
queue (pop-and-send, or pop-and-push-back-at-head). -/
theorem lbProcessQueue_invariant (st : LBState) (free : String × Int → Bool)
    (t1 t2 t3 : Int) :
    (lbProcessQueue st free t1 t2 t3).1.queueLoadBalancerMaxSize
        = st.queueLoadBalancerMaxSize
    ∧ (lbProcessQueue st free t1 t2 t3).1.queue.length ≤ st.queue.length := by
  unfold lbProcessQueue
  cases hq : st.queue with
  | nil => exact ⟨rfl, by rw [hq]⟩
  | cons msg rest =>
    cases hf : st.serviceAddresses.find? free with
    | some addr =>
      refine ⟨rfl, ?_⟩
      show rest.length ≤ (msg :: rest).length
      simp
    | none =>
      refine ⟨rfl, ?_⟩
      show st.queue.length ≤ (msg :: rest).length
      rw [hq]

theorem lbStep_invariant (st : LBState) (e : LBEvent)
    (h : st.queue.length ≤ st.queueLoadBalancerMaxSize) :
    (lbStep st e).queue.length ≤ (lbStep st e).queueLoadBalancerMaxSize
    ∧ (lbStep st e).queueLoadBalancerMaxSize = st.queueLoadBalancerMaxSize := by
  cases e with
  | recv line =>
    simp only [lbStep]
    cases hr : lbReceivingMessages st line with
    | error e => exact ⟨h, rfl⟩
    | ok r =>
      obtain ⟨hmax, hlen⟩ := lbRecv_invariant st line r hr
      show r.state.queue.length ≤ r.state.queueLoadBalancerMaxSize
        ∧ r.state.queueLoadBalancerMaxSize = st.queueLoadBalancerMaxSize
      rw [hmax]
      exact ⟨by omega, rfl⟩
  | dispatch free t1 t2 t3 =>
    simp only [lbStep]
    obtain ⟨hmax, hlen⟩ := lbProcessQueue_invariant st free t1 t2 t3
    refine ⟨?_, hmax⟩
    rw [hmax]
    omega

theorem lbRun_invariant (st : LBState) (events : List LBEvent)
    (h : st.queue.length ≤ st.queueLoadBalancerMaxSize) :
    (lbRun st events).queue.length ≤ (lbRun st events).queueLoadBalancerMaxSize
    ∧ (lbRun st events).queueLoadBalancerMaxSize = st.queueLoadBalancerMaxSize := by
  induction events generalizing st with
  | nil => exact ⟨h, rfl⟩
  | cons e es ih =>
    have hstep := lbStep_invariant st e h
    have hrec := ih (lbStep st e) hstep.1
    unfold lbRun at hrec ⊢
    rw [List.foldl_cons]
    exact ⟨hrec.1, hrec.2.trans hstep.2⟩

/-- C7: starting within bound (the constructor starts the queue empty), the
admission queue's length never exceeds the configured maximum across any
sequence of inbound lines and dispatch iterations, and an enqueue attempt on
a full queue leaves the state unchanged, writes nothing, and produces the
observable drop (`"Fila cheia"` log) outcome rather than an error. -/
theorem c7_queue_bound_and_full_drop (st : LBState) (events : List LBEvent)
    (h0 : st.queue.length ≤ st.queueLoadBalancerMaxSize)
    (stF : LBState) (line : String)
    (hfull : stF.queueLoadBalancerMaxSize ≤ stF.queue.length)
    (hne : pyStrip line ≠ "")
    (hcfg : pyStartsWith (pyStrip line) "config;" = false)
    (hping : pyStrip line ≠ "ping") :
    (lbRun st events).queue.length ≤ st.queueLoadBalancerMaxSize
    ∧ lbReceivingMessages stF line = .ok ⟨stF, [], true⟩ := by
  constructor
  · have h := lbRun_invariant st events h0
    rw [← h.2]
    exact h.1
  · unfold lbReceivingMessages
    rw [if_neg hne, if_neg (by simp [hcfg]), if_neg hping,
      if_neg (by omega : ¬stF.queue.length < stF.queueLoadBalancerMaxSize)]

theorem c7_queue_bound_and_full_drop_witness :
    (lbRun ⟨[], 1, [], 2000⟩
        [.recv "1;1;100;", .recv "1;2;200;",
         .dispatch (fun _ => false) 1 2 3]).queue.length ≤ 1
    ∧ lbReceivingMessages ⟨["1;1;100;"], 1, [], 2000⟩ "1;3;300;"
        = .ok ⟨⟨["1;1;100;"], 1, [], 2000⟩, [], true⟩ :=
  c7_queue_bound_and_full_drop ⟨[], 1, [], 2000⟩ _ (by decide)
    ⟨["1;1;100;"], 1, [], 2000⟩ "1;3;300;" (by decide) (by decide)
    (by decide) (by decide)

/-! ### Shape lemmas for the stamping pipeline (claims C2, C3) -/

theorem registerTimeWhenArrives_eq (msg : String) (tf tn : Int) :
    registerTimeWhenArrives msg tf tn
      = msg ++ intStr tn ++ ";"
        ++ intStr (tn - parseTs (pyStrip (pyLast (pySplit msg))) tf) ++ ";" := rfl

theorem registerTimeWhenArrivesLB_eq (msg : String) (tf tn : Int) :
    registerTimeWhenArrivesLB msg tf tn
      = msg ++ intStr tn ++ ";"
        ++ intStr (tn - parseTs (pyStrip (pyLast (pySplit msg))) tf) ++ ";" := rfl

/-- On a `;`-terminated message, `parts[-1]` is `""`, so the arrival stamp's
duration is computed against the fallback clock read. -/
theorem registerTimeWhenArrives_semi_end (x : String) (tf tn : Int) :
    registerTimeWhenArrives (x ++ ";") tf tn
      = (x ++ ";") ++ intStr tn ++ ";" ++ intStr (tn - tf) ++ ";" := by
  rw [registerTimeWhenArrives_eq, pyLast_semi_end]
  rfl

/-- `_register_time_when_go_out` on a message ending `...;{d};`: the value it
parses as the "arrival timestamp" is the previous duration field `d`. -/
theorem registerTimeWhenGoOut_shape (x : String) (d : Int) (t1 t2 t3 t4 : Int) :
    registerTimeWhenGoOut (x ++ ";" ++ intStr d ++ ";") t1 t2 t3 t4
      = some (x ++ ";" ++ intStr d ++ ";" ++ intStr t3 ++ ";"
          ++ intStr (t3 - parseTs (intStr d) t4) ++ ";") := by
  simp only [registerTimeWhenGoOut, pyIdxNeg2_block x (intStr d) (intStr_no_semi d)]

/-- `_register_mrt_at_the_end` on a message ending `...;{d};`: the "last
timestamp" it parses is the final duration field `d`. -/
theorem registerMrtAtTheEnd_shape (x : String) (d : Int) (f1 f2 : Int)
    (firstStr : String)
    (hfirst : (pySplit (x ++ ";" ++ intStr d ++ ";")).get? 2 = some firstStr) :
    registerMrtAtTheEnd (x ++ ";" ++ intStr d ++ ";") f1 f2
      = some ((x ++ ";" ++ intStr d ++ ";") ++ "RESPONSE TIME:;"
          ++ intStr (parseTs (intStr d) f2 - parseTs firstStr f1) ++ ";") := by
  simp only [registerMrtAtTheEnd, hfirst,
    pyIdxNeg2_block x (intStr d) (intStr_no_semi d)]

theorem pySplit_get2_exists (x : String) (h : 2 ≤ x.data.count ';') :
    ∃ s, (pySplit x).get? 2 = some s := by
  cases hg : (pySplit x).get? 2 with
  | some s => exact ⟨s, rfl⟩
  | none =>
    rw [List.get?_eq_none, pySplit_length] at hg
    omega

theorem count_semi_append (a b : String) :
    (a ++ b).data.count ';' = a.data.count ';' + b.data.count ';' := by
  rw [String.data_append, List.count_append]

theorem count_semi_semi : (";" : String).data.count ';' = 1 := rfl

theorem count_semi_newline : ("\n" : String).data.count ';' = 0 := rfl

/-- C2 counterexample: at a concrete message the load balancer's outgoing
message carries 3 new fields — the `(arrivalTime, hopDuration)` pair *plus*
one extra bare send timestamp — not exactly one pair (2 fields). -/
theorem c2_counterexample :
    lbProcessQueue ⟨["1;1;100;"], 5, [("localhost", 3000)], 2000⟩
        (fun _ => true) 100 100 101
      = (⟨[], 5, [("localhost", 3000)], 2000⟩,
         [("1;1;100;100;0;101;\n", ("localhost", 3000))])
    ∧ (pySplit "1;1;100;100;0;101;").length ≠ (pySplit "1;1;100;").length + 2 := by
  exact ⟨rfl, by decide⟩

/-- C2 (amended): per forwarded data message, the LoadBalancer appends one
`(arrivalTime, hopDuration)` pair plus one extra bare send-timestamp field
(3 fields); a non-terminal Service appends two pairs — arrival and exit —
(4 fields); the terminal Service appends those two pairs plus one
`("RESPONSE TIME:", totalDuration)` marker pair and still forwards the
result to its target; in every case the outgoing message extends the
incoming one by pure appending (no existing field is rewritten). -/
theorem c2_hop_appends (msg : String) (rest : List String) (maxQ : Nat)
    (addrs : List (String × Int)) (port : Int) (addr : String × Int)
    (free : String × Int → Bool) (hfind : addrs.find? free = some addr)
    (tf tn ts ta1 ta2 t3 t4 t5 t6 t7 t8 : Int) :
    (∃ d, lbProcessQueue ⟨msg :: rest, maxQ, addrs, port⟩ free tf tn ts
        = (⟨rest, maxQ, addrs, port⟩,
           [(msg ++ intStr tn ++ ";" ++ intStr d ++ ";" ++ intStr ts ++ ";" ++ "\n",
             addr)]))
    ∧ (∀ d : Int,
        (intStr tn ++ ";" ++ intStr d ++ ";" ++ intStr ts ++ ";").data.count ';' = 3)
    ∧ (∃ d1 d2, serviceProcessAndSendToDestiny false (msg :: rest) true
          ta1 ta2 t3 t4 t5 t6 t7 t8
        = some (rest,
            [msg ++ intStr ta2 ++ ";" ++ intStr d1 ++ ";" ++ intStr t5 ++ ";"
              ++ intStr d2 ++ ";" ++ "\n"]))
    ∧ (∀ d1 d2 : Int,
        (intStr ta2 ++ ";" ++ intStr d1 ++ ";" ++ intStr t5 ++ ";"
          ++ intStr d2 ++ ";").data.count ';' = 4)
    ∧ (∃ d1 d2 m, serviceProcessAndSendToDestiny true (msg :: rest) true
          ta1 ta2 t3 t4 t5 t6 t7 t8
        = some (rest,
            [msg ++ intStr ta2 ++ ";" ++ intStr d1 ++ ";" ++ intStr t5 ++ ";"
              ++ intStr d2 ++ ";" ++ "RESPONSE TIME:;" ++ intStr m ++ ";" ++ "\n"])) := by
  refine ⟨?_, ?_, ?_, ?_, ?_⟩
  · refine ⟨tn - parseTs (pyStrip (pyLast (pySplit msg))) tf, ?_⟩
    simp only [lbProcessQueue, hfind, registerTimeWhenArrivesLB_eq]
  · intro d
    simp [count_semi_append, count_semi_intStr, count_semi_semi]
  · refine ⟨ta2 - parseTs (pyStrip (pyLast (pySplit msg))) ta1,
      t5 - parseTs (intStr (ta2 - parseTs (pyStrip (pyLast (pySplit msg))) ta1)) t6, ?_⟩
    simp only [serviceProcessAndSendToDestiny, registerTimeWhenArrives_eq,
      registerTimeWhenGoOut_shape, Bool.false_eq_true, if_false, if_true]
  · intro d1 d2
    simp [count_semi_append, count_semi_intStr, count_semi_semi]
  · have hcount : 2 ≤ (msg ++ intStr ta2 ++ ";"
        ++ intStr (ta2 - parseTs (pyStrip (pyLast (pySplit msg))) ta1) ++ ";"
        ++ intStr t5 ++ ";"
        ++ intStr (t5 - parseTs (intStr (ta2 - parseTs (pyStrip (pyLast (pySplit msg))) ta1)) t6)
        ++ ";").data.count ';' := by
      simp [count_semi_append, count_semi_intStr, count_semi_semi]
    obtain ⟨firstStr, hfs⟩ := pySplit_get2_exists _ hcount
    refine ⟨ta2 - parseTs (pyStrip (pyLast (pySplit msg))) ta1,
      t5 - parseTs (intStr (ta2 - parseTs (pyStrip (pyLast (pySplit msg))) ta1)) t6,
      parseTs (intStr (t5 - parseTs (intStr (ta2 - parseTs (pyStrip (pyLast (pySplit msg))) ta1)) t6)) t8
        - parseTs firstStr t7, ?_⟩
    simp only [serviceProcessAndSendToDestiny, registerTimeWhenArrives_eq,
      registerTimeWhenGoOut_shape, if_true]
    rw [registerMrtAtTheEnd_shape _ _ t7 t8 firstStr hfs]

theorem c2_hop_appends_witness :
    (∃ d, lbProcessQueue ⟨["1;1;100;"], 5, [("localhost", 3000)], 2000⟩
        (fun _ => true) 1 2 3
      = (⟨[], 5, [("localhost", 3000)], 2000⟩,
         [("1;1;100;" ++ intStr 2 ++ ";" ++ intStr d ++ ";" ++ intStr 3 ++ ";"
             ++ "\n", ("localhost", 3000))]))
    ∧ (∀ d : Int,
        (intStr 2 ++ ";" ++ intStr d ++ ";" ++ intStr 3 ++ ";").data.count ';' = 3)
    ∧ (∃ d1 d2, serviceProcessAndSendToDestiny false ["1;1;100;"] true
          4 5 6 7 8 9 10 11
        = some ([], ["1;1;100;" ++ intStr 5 ++ ";" ++ intStr d1 ++ ";"
            ++ intStr 8 ++ ";" ++ intStr d2 ++ ";" ++ "\n"]))
    ∧ (∀ d1 d2 : Int,
        (intStr 5 ++ ";" ++ intStr d1 ++ ";" ++ intStr 8 ++ ";"
          ++ intStr d2 ++ ";").data.count ';' = 4)
    ∧ (∃ d1 d2 m, serviceProcessAndSendToDestiny true ["1;1;100;"] true
          4 5 6 7 8 9 10 11
        = some ([], ["1;1;100;" ++ intStr 5 ++ ";" ++ intStr d1 ++ ";"
            ++ intStr 8 ++ ";" ++ intStr d2 ++ ";" ++ "RESPONSE TIME:;"
            ++ intStr m ++ ";" ++ "\n"])) :=
  c2_hop_appends "1;1;100;" [] 5 [("localhost", 3000)] 2000 ("localhost", 3000)
    (fun _ => true) rfl 1 2 3 4 5 6 7 8 9 10 11

/-! ### Round trip through a single terminal service (claim C3) -/

theorem header_data : ("1;1;" : String).data = '1' :: ';' :: '1' :: ';' :: [] := rfl

theorem count_semi_marker : ("RESPONSE TIME:;" : String).data.count ';' = 1 := rfl

theorem splitSemiChars_one_semi_one (l : List Char) :
    splitSemiChars ('1' :: ';' :: l) = ['1'] :: splitSemiChars l := by
  simp [splitSemiChars]

/-- `parts[2]` of a message `1;1;T;...` whose third field `T` is
separator-free. -/
theorem pySplit_get2_header (m T : String) (z : List Char) (hT : ';' ∉ T.data)
    (hm : m.data = '1' :: ';' :: '1' :: ';' :: (T.data ++ ';' :: z)) :
    (pySplit m).get? 2 = some T := by
  unfold pySplit
  rw [hm, splitSemiChars_one_semi_one, splitSemiChars_one_semi_one,
    splitSemiChars_append_semi, splitSemiChars_no_semi_append T.data hT]
  simp [List.dropLast, mk_data]

/-- `_register_mrt_at_the_end_source` on a message carrying the terminal
service's `RESPONSE TIME:;{M};` tail whose `parts[2]` is the printed initial
send timestamp `T0`: the value parsed as the "last timestamp" is the already
computed MRT `M`, so the appended pair carries `M - T0`. -/
theorem registerMrtAtTheEndSource_shape (x : String) (M T0 : Int)
    (hget2 : (pySplit (x ++ "RESPONSE TIME:;" ++ intStr M ++ ";")).get? 2
        = some (intStr T0)) :
    registerMrtAtTheEndSource (x ++ "RESPONSE TIME:;" ++ intStr M ++ ";")
      = .ok ((x ++ "RESPONSE TIME:;" ++ intStr M ++ ";")
          ++ "TEMPO DE RESPOSTA:;" ++ intStr (M - T0) ++ ";") := by
  have hlit : ("RESPONSE TIME:;" : String) = "RESPONSE TIME:" ++ ";" := by decide
  have hx : x ++ "RESPONSE TIME:;" = x ++ "RESPONSE TIME:" ++ ";" := by
    rw [String.append_assoc, ← hlit]
  have hneg2 : pyIdxNeg2 (pySplit (x ++ "RESPONSE TIME:;" ++ intStr M ++ ";"))
      = some (intStr M) := by
    rw [hx]
    exact pyIdxNeg2_block (x ++ "RESPONSE TIME:") (intStr M) (intStr_no_semi M)
  simp only [registerMrtAtTheEndSource, hneg2, hget2, pyToInt_intStr]

/-- C3 counterexample: the concrete round trip of `1;1;1000;` through one
terminal service.  The message reaching the source carries 6 appended fields
(4 hop fields plus the 2-field marker pair), not 2 hop fields plus one
`RESPONSE_TIME` field (3, or 4 counting the marker as a pair); and its
`totalDuration` field is `4`, although the last timestamp stamped into the
message is `1005` and `1005 - 1000 = 5` — the code divides by `parts[-2]`,
which is a duration, not the last timestamp. -/
theorem c3_counterexample :
    serviceProcessAndSendToDestiny true ["1;1;1000;"] true
        1001 1002 1003 1003 1005 1005 0 0
      = some ([], ["1;1;1000;1002;1;1005;1004;RESPONSE TIME:;4;\n"])
    ∧ (pySplit "1;1;1000;1002;1;1005;1004;RESPONSE TIME:;4;").length
        ≠ (pySplit "1;1;1000;").length + 3
    ∧ (pySplit "1;1;1000;1002;1;1005;1004;RESPONSE TIME:;4;").length
        ≠ (pySplit "1;1;1000;").length + 4
    ∧ ((4 : Int) ≠ 1005 - 1000) := by
  exact ⟨rfl, by decide, by decide, by decide⟩

/-- C3 (amended): sending `1;1;{T0};` through one terminal service yields, at
the source, a message with exactly 6 appended fields: the pairs
`(tn1, tn1 - tf1)` and `(tOut, tOut - (tn1 - tf1))` (the second duration is
computed against the previous *duration* field, which the code mistakes for
the arrival timestamp) plus the marker pair whose total is
`tOut - (tn1 - tf1) - T0`; this equals `lastTimestamp - T0` only when the two
clock reads of the arrival stamp coincide (`tf1 = tn1`).  The source then
appends a further `TEMPO DE RESPOSTA:` pair computed from the marker value
itself, carrying `M - T0`. -/
theorem c3_round_trip (T0 tf1 tn1 t3 t4 tOut t6 f1 f2 : Int)
    (rest : List String) (hT0 : 0 ≤ T0) (h1 : tf1 ≤ tn1)
    (h2 : tn1 - tf1 ≤ tOut) :
    serviceProcessAndSendToDestiny true (("1;1;" ++ intStr T0 ++ ";") :: rest)
        true tf1 tn1 t3 t4 tOut t6 f1 f2
      = some (rest,
          ["1;1;" ++ intStr T0 ++ ";" ++ intStr tn1 ++ ";" ++ intStr (tn1 - tf1)
            ++ ";" ++ intStr tOut ++ ";" ++ intStr (tOut - (tn1 - tf1)) ++ ";"
            ++ "RESPONSE TIME:;" ++ intStr (tOut - (tn1 - tf1) - T0) ++ ";"
            ++ "\n"])
    ∧ (pySplit ("1;1;" ++ intStr T0 ++ ";" ++ intStr tn1 ++ ";"
          ++ intStr (tn1 - tf1) ++ ";" ++ intStr tOut ++ ";"
          ++ intStr (tOut - (tn1 - tf1)) ++ ";"
          ++ "RESPONSE TIME:;" ++ intStr (tOut - (tn1 - tf1) - T0) ++ ";")).length
        = (pySplit ("1;1;" ++ intStr T0 ++ ";")).length + 6
    ∧ registerMrtAtTheEndSource ("1;1;" ++ intStr T0 ++ ";" ++ intStr tn1 ++ ";"
          ++ intStr (tn1 - tf1) ++ ";" ++ intStr tOut ++ ";"
          ++ intStr (tOut - (tn1 - tf1)) ++ ";"
          ++ "RESPONSE TIME:;" ++ intStr (tOut - (tn1 - tf1) - T0) ++ ";")
        = .ok (("1;1;" ++ intStr T0 ++ ";" ++ intStr tn1 ++ ";"
            ++ intStr (tn1 - tf1) ++ ";" ++ intStr tOut ++ ";"
            ++ intStr (tOut - (tn1 - tf1)) ++ ";"
            ++ "RESPONSE TIME:;" ++ intStr (tOut - (tn1 - tf1) - T0) ++ ";")
          ++ "TEMPO DE RESPOSTA:;" ++ intStr (tOut - (tn1 - tf1) - T0 - T0) ++ ";") := by
  have hD1 : (0 : Int) ≤ tn1 - tf1 := by omega
  have hD2 : (0 : Int) ≤ tOut - (tn1 - tf1) := by omega
  have hget2 : (pySplit ("1;1;" ++ intStr T0 ++ ";" ++ intStr tn1 ++ ";"
      ++ intStr (tn1 - tf1) ++ ";" ++ intStr tOut ++ ";"
      ++ intStr (tOut - (tn1 - tf1)) ++ ";")).get? 2 = some (intStr T0) := by
    apply pySplit_get2_header _ _ ((intStr tn1).data ++ ';'
      :: ((intStr (tn1 - tf1)).data ++ ';' :: ((intStr tOut).data ++ ';'
      :: ((intStr (tOut - (tn1 - tf1))).data ++ [';'])))) (intStr_no_semi T0)
    simp [String.data_append, semi_data, header_data, List.append_assoc]
  have hget2m3 : (pySplit ("1;1;" ++ intStr T0 ++ ";" ++ intStr tn1 ++ ";"
      ++ intStr (tn1 - tf1) ++ ";" ++ intStr tOut ++ ";"
      ++ intStr (tOut - (tn1 - tf1)) ++ ";"
      ++ "RESPONSE TIME:;" ++ intStr (tOut - (tn1 - tf1) - T0) ++ ";")).get? 2
      = some (intStr T0) := by
    apply pySplit_get2_header _ _ ((intStr tn1).data ++ ';'
      :: ((intStr (tn1 - tf1)).data ++ ';' :: ((intStr tOut).data ++ ';'
      :: ((intStr (tOut - (tn1 - tf1))).data
          ++ ';' :: (("RESPONSE TIME:;" : String).data
          ++ (intStr (tOut - (tn1 - tf1) - T0)).data ++ [';'])))))
      (intStr_no_semi T0)
    simp [String.data_append, semi_data, header_data, List.append_assoc]
  refine ⟨?_, ?_, ?_⟩
  · simp only [serviceProcessAndSendToDestiny,
      registerTimeWhenArrives_semi_end ("1;1;" ++ intStr T0) tf1 tn1,
      registerTimeWhenGoOut_shape ("1;1;" ++ intStr T0 ++ ";" ++ intStr tn1)
        (tn1 - tf1) t3 t4 tOut t6,
      parseTs_intStr_nonneg (tn1 - tf1) hD1 t6, if_true]
    rw [registerMrtAtTheEnd_shape _ _ f1 f2 (intStr T0) hget2,
      parseTs_intStr_nonneg (tOut - (tn1 - tf1)) hD2 f2,
      parseTs_intStr_nonneg T0 hT0 f1]
  · simp [pySplit_length, count_semi_append, count_semi_intStr, count_semi_semi,
      count_semi_marker, header_data]
  · rw [registerMrtAtTheEndSource_shape _ (tOut - (tn1 - tf1) - T0) T0 hget2m3]

theorem c3_round_trip_witness :
    serviceProcessAndSendToDestiny true ["1;1;1000;"] true
        1001 1002 1003 1003 1005 1005 0 0
      = some ([], ["1;1;1000;1002;1;1005;1004;RESPONSE TIME:;4;\n"])
    ∧ (pySplit "1;1;1000;1002;1;1005;1004;RESPONSE TIME:;4;").length
        = (pySplit "1;1;1000;").length + 6
    ∧ registerMrtAtTheEndSource "1;1;1000;1002;1;1005;1004;RESPONSE TIME:;4;"
        = .ok "1;1;1000;1002;1;1005;1004;RESPONSE TIME:;4;TEMPO DE RESPOSTA:;-996;" := by
  have h := c3_round_trip 1000 1001 1002 1003 1003 1005 1005 0 0 []
    (by decide) (by decide) (by decide)
  exact h

/-- C10: `AbstractProxy` defines no `register_proxy` attribute, and both
`ServiceProxy.__init__` (line 32) and `Source.__init__` (line 90) call
`AbstractProxy.register_proxy(self)` after their field assignments, so every
construction of a `ServiceProxy` or a `Source` raises `AttributeError` and no
instance is ever successfully created. -/
theorem c10_constructors_always_raise (name : String)
    (localPort serviceTime std : Int) (targetIsSource : Bool)
    (modelFeedingStage : Bool) (sourcePort : Int) (targetAddr : String × Int)
    (maxConsidered : Nat) (arrivalDelay : Int) :
    serviceProxyInit name localPort serviceTime std targetIsSource
        = .error (.attributeError "register_proxy")
    ∧ sourceInit modelFeedingStage sourcePort targetAddr maxConsidered
          arrivalDelay
        = .error (.attributeError "register_proxy") :=
  ⟨rfl, rfl⟩

end Pasid
